import Mathlib

/-!
Shallow embedding of `check_qgis_algorithms.py` (repository map-offline).

The script probes for a QGIS `qgis_process` binary: it resolves a path
(environment override, then platform candidate lists), invokes the binary
via subprocess with per-call timeouts, filters and categorises the
algorithm listing by case-insensitive substring keywords, and assembles a
summary record for a web layer.

The embedding models the outside world (environment variables, filesystem
existence checks, the platform identifiers, and every `subprocess.run`
outcome) as a `World` record of functions.  Each Python function becomes a
total Lean function returning its value in `Except PyExc`, together with
the list of lines it printed (one entry per `print` call) and the trace of
subprocess invocations it made (arguments plus the `timeout=` value).
Exception constructors carry the Python `str(e)` message.
-/

namespace QgisCheck

/-- Result of a `subprocess.run` call that completed: exit code plus the
captured stdout and stderr (`capture_output=True, text=True`). -/
structure CompletedProcess where
  returncode : Int
  stdout : String
  stderr : String
deriving DecidableEq

/-- Exceptions a `subprocess.run` call can raise in this script:
`subprocess.TimeoutExpired`, `FileNotFoundError`, or any other exception
(type name plus message).  The `msg` field is the Python `str(e)`. -/
inductive PyExc where
  | timeoutExpired (msg : String)
  | fileNotFound (msg : String)
  | other (typeName msg : String)
deriving DecidableEq

/-- The Python `str(e)` of a raised exception. -/
def PyExc.message : PyExc → String
  | .timeoutExpired m => m
  | .fileNotFound m => m
  | .other _ m => m

/-- Outcome of one `subprocess.run` call: completion or a raised exception. -/
abbrev RunResult := Except PyExc CompletedProcess

/-- `True` exactly when the call completed with exit code zero. -/
def runExitedZero : RunResult → Bool
  | .ok cp => cp.returncode == 0
  | .error _ => false

/-- One subprocess invocation: the argument vector passed to
`subprocess.run` and the `timeout=` value in seconds. -/
structure Invocation where
  args : List String
  timeoutSec : Nat
deriving DecidableEq

/-- The outside world: `os.environ`, `os.path.exists`, `platform.system()`,
`platform.machine()`, `platform.python_version()`, and the behaviour of
`subprocess.run` on a given argument vector and timeout. -/
structure World where
  env : String → Option String
  pathExists : String → Bool
  platformSystem : String
  platformMachine : String
  pythonVersion : String
  run : List String → Nat → RunResult

/-! ### String helpers (kernel-reducible models of the Python string ops) -/

/-- A string of `n` copies of the character `c` (models `c * n`). -/
def strRepeat (c : Char) (n : Nat) : String :=
  String.mk (List.replicate n c)

/-- Right-align in a field of width `w` (models the format `:wd`). -/
def alignRight (s : String) (w : Nat) : String :=
  strRepeat ' ' (w - s.length) ++ s

/-- Left-align in a field of width `w` (models the format `:ws`). -/
def alignLeft (s : String) (w : Nat) : String :=
  s ++ strRepeat ' ' (w - s.length)

/-- Split a character list at newline characters (models `str.split`). -/
def splitCharAux : List Char → List Char → List (List Char)
  | [], acc => [acc.reverse]
  | c :: cs, acc =>
    if c = '\n' then acc.reverse :: splitCharAux cs []
    else splitCharAux cs (c :: acc)

/-- Strip leading and trailing whitespace (models `str.strip`). -/
def listTrim (cs : List Char) : List Char :=
  ((cs.dropWhile Char.isWhitespace).reverse.dropWhile Char.isWhitespace).reverse

/-- Strip leading and trailing whitespace of a string. -/
def strTrim (s : String) : String :=
  String.mk (listTrim s.toList)

/-- Lower-case a string (models `str.lower`). -/
def strLower (s : String) : String :=
  String.mk (s.toList.map Char.toLower)

/-- Substring containment (models Python `pat in s`). -/
def strContains (s pat : String) : Bool :=
  s.toList.tails.any (fun t => pat.toList.isPrefixOf t)

/-- The first `n` characters of a string (models `s[:n]`). -/
def strTake (s : String) (n : Nat) : String :=
  String.mk (s.toList.take n)

/-- `lines = [line.strip() for line in stdout.split(chr(10)) if line.strip()]`:
split at newlines, strip each line, keep the non-blank ones. -/
def cleanLines (s : String) : List String :=
  (((splitCharAux s.toList []).map listTrim).filter
    (fun cs => !cs.isEmpty)).map String.mk

/-- A line matches a keyword list when its lower-casing contains at least
one of the keywords (models `any(keyword in line.lower() for keyword in kws)`). -/
def matchesAny (kws : List String) (line : String) : Bool :=
  kws.any (fun k => strContains (strLower line) k)

/-! ### Classifier definitions from the source -/

/-- The tile keyword set of `check_qgis_algorithms` (source line 126). -/
def tile_keywords : List String :=
  ["tile", "qtiles", "xyz", "tms", "raster"]

/-- The tile keyword set used for the summary record in `get_qgis_info`
(source line 196): note it lacks the keyword raster. -/
def info_tile_keywords : List String :=
  ["tile", "qtiles", "xyz", "tms"]

/-- The tile-related filter of `check_qgis_algorithms` (source lines
125-126). -/
def tile_algorithms_of (lines : List String) : List String :=
  lines.filter (matchesAny tile_keywords)

/-- The fixed category table of `check_qgis_algorithms` (source lines
141-147), in insertion order. -/
def categories : List (String × List String) :=
  [("Vector", ["vector", "geometry", "buffer", "clip"]),
   ("Raster", ["raster", "dem", "slope", "aspect"]),
   ("Processing", ["dissolve", "merge", "join", "intersect"]),
   ("Analysis", ["distance", "area", "statistics", "spatial"]),
   ("Export", ["export", "save", "write", "output"])]

/-- Category count (source lines 152-153):
`sum(1 for line in lines if any(keyword in line.lower() for keyword in keywords))`. -/
def categoryCount (lines : List String) (kws : List String) : Nat :=
  lines.countP (matchesAny kws)

/-! ### Path resolver (`get_qgis_path`, source lines 6-52) -/

/-- Windows candidate paths (source lines 20-26). -/
def windows_paths : List String :=
  ["C:\\Program Files\\QGIS 3.42.3\\bin\\qgis_process-qgis.bat",
   "C:\\Program Files\\QGIS 3.40.0\\bin\\qgis_process-qgis.bat",
   "C:\\Program Files\\QGIS 3.38.0\\bin\\qgis_process-qgis.bat",
   "C:\\OSGeo4W\\bin\\qgis_process-qgis.bat",
   "C:\\OSGeo4W64\\bin\\qgis_process-qgis.bat"]

/-- Linux candidate paths (source lines 29-35). -/
def linux_paths : List String :=
  ["/usr/bin/qgis_process",
   "/usr/local/bin/qgis_process",
   "/opt/qgis/bin/qgis_process",
   "/usr/bin/qgis-lts",
   "/usr/bin/qgis"]

/-- macOS candidate paths (source lines 37-40). -/
def darwin_paths : List String :=
  ["/Applications/QGIS.app/Contents/MacOS/bin/qgis_process",
   "/usr/local/bin/qgis_process"]

/-- The three-way platform switch on `platform.system().lower()`
(source lines 18-43): the candidate list, or `none` for an unsupported
platform. -/
def platform_paths (system : String) : Option (List String) :=
  if system = "windows" then some windows_paths
  else if system = "linux" then some linux_paths
  else if system = "darwin" then some darwin_paths
  else none

/-- The environment-override step (source lines 10-13):
`qgis_path = os.environ.get(QGIS_PATH)` followed by
`if qgis_path and os.path.exists(qgis_path)`.  A set but empty value is
falsy in Python, hence skipped. -/
def envOverride (w : World) : Option String :=
  match w.env "QGIS_PATH" with
  | some p => if p = "" then none else if w.pathExists p then some p else none
  | none => none

/-- Result of the resolver: the returned path (or `None`) and the printed
lines. -/
structure PathResult where
  result : Option String
  log : List String
deriving DecidableEq

/-- `get_qgis_path` (source lines 6-52): environment override first, then
the platform candidate list walked in order, returning the first existing
entry. -/
def get_qgis_path (w : World) : PathResult :=
  match envOverride w with
  | some p => ⟨some p, ["Using QGIS from environment variable: " ++ p]⟩
  | none =>
    let system := strLower w.platformSystem
    match platform_paths system with
    | none => ⟨none, ["Unsupported platform: " ++ system]⟩
    | some paths =>
      match paths.find? w.pathExists with
      | some path => ⟨some path, ["Found QGIS at: " ++ path]⟩
      | none => ⟨none, ["QGIS not found on " ++ system ++ " platform"]⟩

/-! ### `check_qgis_algorithms` (source lines 54-173) -/

/-- Result of `check_qgis_algorithms`: the returned boolean (in `Except`,
so that an unhandled exception would show up as `.error`), the printed
lines, and the subprocess invocations made. -/
structure CheckResult where
  result : Except PyExc Bool
  log : List String
  trace : List Invocation

/-- The header block (source lines 57-71): banner plus the system-info
table, ending with the blank `print()`. -/
def headerLog (w : World) : List String :=
  ["🔍 QGIS Algorithm Checker",
   strRepeat '=' 40,
   "System Information:",
   "  Platform: " ++ w.platformSystem,
   "  Architecture: " ++ w.platformMachine,
   "  Python Version: " ++ w.pythonVersion,
   "  Environment: " ++ (w.env "FLASK_ENV").getD "production",
   ""]

/-- The not-found advice block (source lines 76-85). -/
def solutionsLog : List String :=
  ["❌ QGIS not found on this system",
   "\n💡 Solutions:",
   "  1. For local development:",
   "     - Windows: Install QGIS Desktop from qgis.org",
   "     - Linux: sudo apt install qgis",
   "     - macOS: brew install qgis",
   "  2. For Railway deployment:",
   "     - Use Docker with QGIS pre-installed",
   "     - Set QGIS_PATH environment variable",
   "  3. Alternative: Manual tile download is working!"]

/-- One enumerated sample line (source line 119 and 133): two spaces, the
1-based index right-aligned to width 2, a dot, the line. -/
def enumLines (xs : List String) : List String :=
  xs.enum.map (fun p => "  " ++ alignRight (toString (p.1 + 1)) 2 ++ ". " ++ p.2)

/-- The success-path report of `check_qgis_algorithms` (source lines
111-159): totals, first-10 sample, tile-related section, category table,
closing summary. -/
def successLog (p : String) (lines : List String) : List String :=
  let tile_algorithms := tile_algorithms_of lines
  ["\n📋 Total algorithms found: " ++ toString lines.length,
   strRepeat '=' 50,
   "Sample algorithms:"]
  ++ enumLines (lines.take 10)
  ++ (if lines.length > 10 then
        ["  ... and " ++ toString (lines.length - 10) ++ " more"]
      else [])
  ++ ["\n🗂️  Tile/Raster-related algorithms (" ++
        toString tile_algorithms.length ++ " found):",
      strRepeat '=' 50]
  ++ (if tile_algorithms.isEmpty then
        ["  No tile-specific algorithms found"]
      else
        enumLines (tile_algorithms.take 15)
        ++ (if tile_algorithms.length > 15 then
              ["  ... and " ++ toString (tile_algorithms.length - 15) ++
                " more tile-related algorithms"]
            else []))
  ++ ["\n📊 Algorithm Categories:",
      strRepeat '=' 30]
  ++ categories.map (fun c =>
       "  " ++ alignLeft c.1 12 ++ ": " ++
         alignRight (toString (categoryCount lines c.2)) 3 ++ " algorithms")
  ++ ["\n✅ QGIS is working properly!",
      "   Path: " ++ p,
      "   Total algorithms: " ++ toString lines.length,
      "   Tile-related: " ++ toString tile_algorithms.length]

/-- `check_qgis_algorithms` (source lines 54-173).  The version check is
wrapped in a bare `except: pass`, so its failure never escapes; the list
call is guarded by handlers for `TimeoutExpired`, `FileNotFoundError` and
the catch-all `Exception`, in that order. -/
def check_qgis_algorithms (w : World) : CheckResult :=
  let pr := get_qgis_path w
  let pre := headerLog w ++ pr.log
  match pr.result with
  | none => ⟨.ok false, pre ++ solutionsLog, []⟩
  | some p =>
    let tryPre := ["✅ QGIS found at: " ++ p,
                   "Checking QGIS version and algorithms..."]
    let inv1 : Invocation := ⟨[p, "--version"], 30⟩
    let versionLog :=
      match w.run [p, "--version"] 30 with
      | .ok vp => if vp.returncode = 0 then
                    ["QGIS Version: " ++ strTrim vp.stdout]
                  else []
      | .error _ => []
    let inv2 : Invocation := ⟨[p, "list"], 60⟩
    match w.run [p, "list"] 60 with
    | .ok cp =>
      if cp.returncode ≠ 0 then
        ⟨.ok false, pre ++ tryPre ++ versionLog ++
          ["❌ QGIS command failed: " ++ cp.stderr,
           "Return code: " ++ toString cp.returncode],
         [inv1, inv2]⟩
      else
        let lines := cleanLines cp.stdout
        ⟨.ok true, pre ++ tryPre ++ versionLog ++ successLog p lines,
         [inv1, inv2]⟩
    | .error (.timeoutExpired _) =>
      ⟨.ok false, pre ++ tryPre ++ versionLog ++
        ["❌ QGIS command timed out (60 seconds)",
         "This might indicate QGIS is installed but not working properly"],
       [inv1, inv2]⟩
    | .error (.fileNotFound _) =>
      ⟨.ok false, pre ++ tryPre ++ versionLog ++
        ["❌ QGIS executable not found at: " ++ p],
       [inv1, inv2]⟩
    | .error (.other t m) =>
      ⟨.ok false, pre ++ tryPre ++ versionLog ++
        ["❌ Error checking QGIS: " ++ m,
         "Exception type: " ++ t],
       [inv1, inv2]⟩

/-! ### `get_qgis_info` (source lines 175-220) -/

/-- The summary record assembled by `get_qgis_info`.  Keys absent from the
Python dict are `none`. -/
structure QgisInfo where
  qgis_found : Bool
  qgis_path : Option String
  platform : String
  manual_method_available : Bool
  total_algorithms : Option Nat
  tile_algorithms : Option (List String)
  qgis_working : Option Bool
  qgis_version : Option String
  error : Option String
deriving DecidableEq

/-- Result of `get_qgis_info`: the record, printed lines (those of the
resolver it calls), and the invocation trace. -/
structure InfoResult where
  result : Except PyExc QgisInfo
  log : List String
  trace : List Invocation

/-- `get_qgis_info` (source lines 175-220).  Note the list call uses
`timeout=30` and the version call `timeout=10` here; the tile list uses
`info_tile_keywords` and keeps only the first 5 matches. -/
def get_qgis_info (w : World) : InfoResult :=
  let pr := get_qgis_path w
  let base : QgisInfo :=
    ⟨pr.result.isSome, pr.result, w.platformSystem, true,
     none, none, none, none, none⟩
  match pr.result with
  | none => ⟨.ok base, pr.log, []⟩
  | some p =>
    let inv1 : Invocation := ⟨[p, "list"], 30⟩
    match w.run [p, "list"] 30 with
    | .ok cp =>
      if cp.returncode = 0 then
        let lines := cleanLines cp.stdout
        let info1 : QgisInfo :=
          { base with
            total_algorithms := some lines.length,
            tile_algorithms :=
              some ((lines.filter (matchesAny info_tile_keywords)).take 5),
            qgis_working := some true,
            qgis_version := some "Available" }
        let inv2 : Invocation := ⟨[p, "--version"], 10⟩
        match w.run [p, "--version"] 10 with
        | .ok vp =>
          if vp.returncode = 0 then
            ⟨.ok { info1 with qgis_version := some (strTrim vp.stdout) },
             pr.log, [inv1, inv2]⟩
          else ⟨.ok info1, pr.log, [inv1, inv2]⟩
        | .error _ => ⟨.ok info1, pr.log, [inv1, inv2]⟩
      else
        ⟨.ok { base with
               qgis_working := some false,
               error := some (if cp.stderr = "" then "QGIS command failed"
                              else cp.stderr) },
         pr.log, [inv1]⟩
    | .error (.timeoutExpired _) =>
      ⟨.ok { base with
             qgis_working := some false,
             error := some "QGIS command timed out" },
       pr.log, [inv1]⟩
    | .error (.fileNotFound m) =>
      ⟨.ok { base with qgis_working := some false, error := some m },
       pr.log, [inv1]⟩
    | .error (.other _ m) =>
      ⟨.ok { base with qgis_working := some false, error := some m },
       pr.log, [inv1]⟩

/-! ### `test_qgis_algorithm` (source lines 222-255) -/

/-- The record returned by `test_qgis_algorithm`; keys absent from the
Python dict are `none`. -/
structure AlgTest where
  algorithm : Option String
  available : Option Bool
  help : Option String
  error : Option String
  qgis_path : Option String
deriving DecidableEq

/-- Result of `test_qgis_algorithm`. -/
structure AlgTestResult where
  result : Except PyExc AlgTest
  log : List String
  trace : List Invocation

/-- `test_qgis_algorithm` (source lines 222-255): run `help <name>` with
`timeout=30`; on exit code zero return the first 1000 characters of stdout
as help text, on a non-zero exit return stderr as error, on any exception
return `str(e)` as error. -/
def test_qgis_algorithm (w : World) (algorithm_name : String) : AlgTestResult :=
  let pr := get_qgis_path w
  match pr.result with
  | none => ⟨.ok ⟨none, none, none, some "QGIS not found", none⟩, pr.log, []⟩
  | some p =>
    let inv : Invocation := ⟨[p, "help", algorithm_name], 30⟩
    match w.run [p, "help", algorithm_name] 30 with
    | .ok cp =>
      if cp.returncode = 0 then
        ⟨.ok ⟨some algorithm_name, some true,
              some (strTake cp.stdout 1000), none, some p⟩,
         pr.log, [inv]⟩
      else
        ⟨.ok ⟨some algorithm_name, some false, none,
              some cp.stderr, some p⟩,
         pr.log, [inv]⟩
    | .error e =>
      ⟨.ok ⟨some algorithm_name, some false, none,
            some e.message, some p⟩,
       pr.log, [inv]⟩

/-! ### Concrete worlds used by witnesses and counterexamples -/

/-- The algorithm listing of the sample scenario of the spec, as the raw
stdout of the `list` call. -/
def sampleStdout : String :=
  "buffer\nqtiles_generate\nraster_calc\ndissolve\nxyz_export"

/-- The algorithm listing of the sample scenario of the spec, as lines. -/
def sampleLines : List String :=
  ["buffer", "qtiles_generate", "raster_calc", "dissolve", "xyz_export"]

/-- A Linux world with QGIS at the first candidate path whose `list` call
succeeds with the sample listing and whose other calls raise. -/
def w0 : World :=
  ⟨fun _ => none,
   fun p => p == "/usr/bin/qgis_process",
   "Linux", "x86_64", "3.11.0",
   fun args _t =>
     if args == ["/usr/bin/qgis_process", "list"] then
       .ok ⟨0, sampleStdout, ""⟩
     else .error (.other "RuntimeError" "boom")⟩

/-- A world on an unrecognized platform with nothing installed. -/
def wAbsent : World :=
  ⟨fun _ => none, fun _ => false, "FreeBSD", "amd64", "3.11.0",
   fun _ _ => .error (.other "RuntimeError" "boom")⟩

/-- A Linux world where `QGIS_PATH` names an existing custom path while a
platform candidate also exists. -/
def wEnvSet : World :=
  ⟨fun k => if k == "QGIS_PATH" then some "/custom/qgis" else none,
   fun p => p == "/custom/qgis" || p == "/usr/bin/qgis_process",
   "Linux", "x86_64", "3.11.0",
   fun _ _ => .error (.other "RuntimeError" "boom")⟩

/-- A Linux world where only the second candidate path exists. -/
def wSecond : World :=
  ⟨fun _ => none,
   fun p => p == "/usr/local/bin/qgis_process",
   "Linux", "x86_64", "3.11.0",
   fun _ _ => .error (.other "RuntimeError" "boom")⟩

/-- A Linux world with QGIS installed where every subprocess call exceeds
its timeout bound. -/
def wTimeout : World :=
  ⟨fun _ => none,
   fun p => p == "/usr/bin/qgis_process",
   "Linux", "x86_64", "3.11.0",
   fun _ _ => .error (.timeoutExpired "Command timed out after 30 seconds")⟩

/-- A Linux world with QGIS installed where only the help call for the
algorithm gdal translate succeeds. -/
def wHelp : World :=
  ⟨fun _ => none,
   fun p => p == "/usr/bin/qgis_process",
   "Linux", "x86_64", "3.11.0",
   fun args _ =>
     if args == ["/usr/bin/qgis_process", "help", "gdal:translate"] then
       .ok ⟨0, "Algorithm help text", ""⟩
     else .error (.other "RuntimeError" "boom")⟩

/-! ### Claims about the path resolver -/

/-- C5: if the environment variable QGIS_PATH is set and the path it names
exists, the resolver returns that path immediately, for every platform and
every filesystem (hence regardless of whether any platform-default
candidate exists).  The side condition that the existence check refutes
the empty string reflects a fixed fact of the Python library: the call
`os.path.exists` applied to the empty string always returns `False`. -/
theorem c5_env_override (w : World) (p : String)
    (henv : w.env "QGIS_PATH" = some p)
    (hex : w.pathExists p = true)
    (hempty : w.pathExists "" = false) :
    (get_qgis_path w).result = some p := by
  have hp : ¬ p = "" := by
    intro h
    rw [h, hempty] at hex
    exact Bool.noConfusion hex
  simp [get_qgis_path, envOverride, henv, hp, hex]

/-- Witness for C5: in `wEnvSet` the override wins although the candidate
path `/usr/bin/qgis_process` also exists. -/
theorem c5_env_override_witness :
    (get_qgis_path wEnvSet).result = some "/custom/qgis" :=
  c5_env_override wEnvSet "/custom/qgis" rfl rfl rfl

/-- C6: when the environment override does not apply and the platform is
recognized (its candidate list is `some cands`), the resolver returns the
first candidate that exists, i.e. `cands.find? w.pathExists`, and returns
absence exactly when no candidate exists. -/
theorem c6_platform_fallback (w : World) (cands : List String)
    (hov : envOverride w = none)
    (hplat : platform_paths (strLower w.platformSystem) = some cands) :
    (get_qgis_path w).result = cands.find? w.pathExists ∧
    ((get_qgis_path w).result = none ↔
      ∀ q ∈ cands, w.pathExists q = false) := by
  have hmain : (get_qgis_path w).result = cands.find? w.pathExists := by
    simp only [get_qgis_path, hov, hplat]
    cases h : cands.find? w.pathExists <;> simp [h]
  refine ⟨hmain, ?_⟩
  rw [hmain, List.find?_eq_none]
  simp

/-- Witness for C6: in `wSecond` only the second Linux candidate exists
and the resolver returns it. -/
theorem c6_platform_fallback_witness :
    (get_qgis_path wSecond).result = linux_paths.find? wSecond.pathExists :=
  (c6_platform_fallback wSecond linux_paths rfl (by decide)).1

/-- C7: on a platform outside windows, linux, darwin, with the
environment override not applying, the resolver returns absence; and when
QGIS_PATH is unset the result is absence for every filesystem whatsoever,
so no candidate path inspection can influence it. -/
theorem c7_unsupported_platform (w : World)
    (hov : envOverride w = none)
    (hplat : platform_paths (strLower w.platformSystem) = none) :
    (get_qgis_path w).result = none ∧
    (w.env "QGIS_PATH" = none →
      ∀ fs : String → Bool,
        (get_qgis_path
          ⟨w.env, fs, w.platformSystem, w.platformMachine,
           w.pythonVersion, w.run⟩).result = none) := by
  constructor
  · simp [get_qgis_path, hov, hplat]
  · intro henv fs
    have hov2 : envOverride
        ⟨w.env, fs, w.platformSystem, w.platformMachine,
         w.pythonVersion, w.run⟩ = none := by
      simp [envOverride, henv]
    simp [get_qgis_path, hov2, hplat]

/-- Witness for C7: the FreeBSD world resolves to absence, even under a
filesystem on which every path exists. -/
theorem c7_unsupported_platform_witness :
    (get_qgis_path wAbsent).result = none ∧
    (get_qgis_path
      ⟨wAbsent.env, fun _ => true, wAbsent.platformSystem,
       wAbsent.platformMachine, wAbsent.pythonVersion,
       wAbsent.run⟩).result = none :=
  ⟨(c7_unsupported_platform wAbsent rfl (by decide)).1,
   (c7_unsupported_platform wAbsent rfl (by decide)).2 rfl (fun _ => true)⟩

/-- C9: when the resolver returns absence, the summary record of
`get_qgis_info` has `qgis_found = false`, carries none of the fields that
require an invocation (`qgis_working`, `total_algorithms`,
`tile_algorithms`, `qgis_version`), and has
`manual_method_available = true`. -/
theorem c9_absent_summary (w : World)
    (hnone : (get_qgis_path w).result = none) :
    (get_qgis_info w).result =
      .ok ⟨false, none, w.platformSystem, true,
           none, none, none, none, none⟩ := by
  simp [get_qgis_info, hnone]

/-- Witness for C9: the FreeBSD world yields the absent-summary record. -/
theorem c9_absent_summary_witness :
    (get_qgis_info wAbsent).result =
      .ok ⟨false, none, "FreeBSD", true, none, none, none, none, none⟩ :=
  c9_absent_summary wAbsent (by decide)

/-! ### Claim about category counting -/

/-- C10: category counting is not mutually exclusive.  A line that matches
several category keyword sets contributes one to each of them: counting
satisfies the per-line recurrence, and an input containing the line
raster export tool has Raster count at least 1 and Export count at least 1
(those two keyword sets being entries of the fixed category table). -/
theorem c10_category_overlap (lines : List String)
    (h : "raster export tool" ∈ lines) :
    1 ≤ categoryCount lines ["raster", "dem", "slope", "aspect"] ∧
    1 ≤ categoryCount lines ["export", "save", "write", "output"] ∧
    ("Raster", ["raster", "dem", "slope", "aspect"]) ∈ categories ∧
    ("Export", ["export", "save", "write", "output"]) ∈ categories ∧
    ∀ kws l rest, categoryCount (l :: rest) kws =
      (if matchesAny kws l then 1 else 0) + categoryCount rest kws := by
  refine ⟨?_, ?_, by decide, by decide, ?_⟩
  · have : 0 < categoryCount lines ["raster", "dem", "slope", "aspect"] := by
      rw [categoryCount, List.countP_pos_iff]
      exact ⟨"raster export tool", h, by decide⟩
    omega
  · have : 0 < categoryCount lines ["export", "save", "write", "output"] := by
      rw [categoryCount, List.countP_pos_iff]
      exact ⟨"raster export tool", h, by decide⟩
    omega
  · intro kws l rest
    rw [categoryCount, categoryCount, List.countP_cons, Nat.add_comm]

/-- Witness for C10: the one-line input raster export tool counts in both
the Raster and the Export category. -/
theorem c10_category_overlap_witness :
    1 ≤ categoryCount ["raster export tool"]
          ["raster", "dem", "slope", "aspect"] ∧
    1 ≤ categoryCount ["raster export tool"]
          ["export", "save", "write", "output"] :=
  ⟨(c10_category_overlap ["raster export tool"] (by decide)).1,
   (c10_category_overlap ["raster export tool"] (by decide)).2.1⟩

/-! ### Claims about the tile filter (C1) -/

/-- C1 counterexample: on the sample listing, the tile-related filter of
`check_qgis_algorithms` (keyword set with raster) yields three lines, but
the tile-algorithm list placed in the summary record by `get_qgis_info`
on the very same listing is only `[qtiles_generate, xyz_export]`: the
keyword set of the claim does not define the tile list of the summary
record, which omits the keyword raster (and truncates to 5 entries). -/
theorem c1_counterexample :
    tile_algorithms_of sampleLines =
      ["qtiles_generate", "raster_calc", "xyz_export"] ∧
    (get_qgis_info w0).result =
      .ok ⟨true, some "/usr/bin/qgis_process", "Linux", true, some 5,
           some ["qtiles_generate", "xyz_export"], some true,
           some "Available", none⟩ ∧
    some ["qtiles_generate", "xyz_export"] ≠
      some (tile_algorithms_of sampleLines) := by
  refine ⟨rfl, rfl, ?_⟩
  decide

/-- C1 amended: the tile-related filter of `check_qgis_algorithms` returns
exactly the in-order subsequence of lines whose lower-casing contains a
keyword of the set tile, qtiles, xyz, tms, raster; on the sample listing it
yields the three expected lines out of five.  The tile list of the summary
record of `get_qgis_info`, however, is computed from the keyword set
tile, qtiles, xyz, tms (without raster) and truncated to the first five
matches. -/
theorem c1_tile_filter_amended (lines : List String) :
    (tile_algorithms_of lines).Sublist lines ∧
    (∀ l, l ∈ tile_algorithms_of lines ↔
        l ∈ lines ∧ matchesAny tile_keywords l = true) ∧
    tile_algorithms_of sampleLines =
      ["qtiles_generate", "raster_calc", "xyz_export"] ∧
    sampleLines.length = 5 ∧
    (∀ w p cp, (get_qgis_path w).result = some p →
      w.run [p, "list"] 30 = Except.ok cp → cp.returncode = 0 →
      ∀ i, (get_qgis_info w).result = .ok i →
        i.tile_algorithms =
          some (((cleanLines cp.stdout).filter
            (matchesAny info_tile_keywords)).take 5)) := by
  refine ⟨List.filter_sublist lines, ?_, by decide, by decide, ?_⟩
  · intro l
    simp [tile_algorithms_of, List.mem_filter]
  · intro w p cp hp hr hrc i hi
    simp only [get_qgis_info, hp, hr, hrc, if_pos] at hi
    split at hi <;>
      first
        | (split at hi <;> · cases hi; rfl)
        | (cases hi; rfl)

/-- Witness for C1 amended: the sample filter value, and the summary tile
list of the world `w0` computed from the raster-less keyword set. -/
theorem c1_tile_filter_amended_witness :
    tile_algorithms_of sampleLines =
      ["qtiles_generate", "raster_calc", "xyz_export"] ∧
    (⟨true, some "/usr/bin/qgis_process", "Linux", true, some 5,
      some ["qtiles_generate", "xyz_export"], some true,
      some "Available", none⟩ : QgisInfo).tile_algorithms =
      some (((cleanLines sampleStdout).filter
        (matchesAny info_tile_keywords)).take 5) :=
  ⟨(c1_tile_filter_amended sampleLines).2.2.1,
   (c1_tile_filter_amended sampleLines).2.2.2.2 w0 "/usr/bin/qgis_process"
     ⟨0, sampleStdout, ""⟩ rfl rfl rfl _ rfl⟩

/-! ### Claims about subprocess timeouts (C2) -/

/-- C2 counterexample: in the world `w0`, `get_qgis_info` invokes the full
algorithm listing (`list`) with a timeout of 30 seconds, not 60, and the
version check (`--version`) with a timeout of 10 seconds, not 30. -/
theorem c2_counterexample :
    (⟨["/usr/bin/qgis_process", "list"], 30⟩ : Invocation) ∈
      (get_qgis_info w0).trace ∧
    (⟨["/usr/bin/qgis_process", "--version"], 10⟩ : Invocation) ∈
      (get_qgis_info w0).trace ∧
    (30 : Nat) ≠ 60 ∧ (10 : Nat) ≠ 30 := by
  refine ⟨?_, ?_, by decide, by decide⟩ <;> decide

/-- The argument tails of the version and listing calls differ. -/
theorem version_ne_list : ¬ ((["--version"] : List String) = ["list"]) := by
  decide

/-- The argument tails of the listing and version calls differ. -/
theorem list_ne_version : ¬ ((["list"] : List String) = ["--version"]) := by
  decide

/-- C2 amended: `check_qgis_algorithms` bounds its version check by 30
seconds and its listing call by 60 seconds, and `test_qgis_algorithm`
bounds its help call by 30 seconds, as the claim states; `get_qgis_info`,
however, bounds its listing call by 30 seconds and its version check by
10 seconds.  Every invocation any of the three operations makes satisfies
this table, in every world. -/
theorem c2_timeouts_amended (w : World) (name : String) :
    (∀ inv ∈ (check_qgis_algorithms w).trace,
        (inv.args.tail = ["--version"] → inv.timeoutSec = 30) ∧
        (inv.args.tail = ["list"] → inv.timeoutSec = 60)) ∧
    (∀ inv ∈ (get_qgis_info w).trace,
        (inv.args.tail = ["--version"] → inv.timeoutSec = 10) ∧
        (inv.args.tail = ["list"] → inv.timeoutSec = 30)) ∧
    (∀ inv ∈ (test_qgis_algorithm w name).trace,
        inv.args.tail.head? = some "help" ∧ inv.timeoutSec = 30) := by
  refine ⟨?_, ?_, ?_⟩
  · intro inv hinv
    rcases hpr : (get_qgis_path w).result with _ | p
    · simp [check_qgis_algorithms, hpr] at hinv
    · simp only [check_qgis_algorithms, hpr] at hinv
      rcases hr : w.run [p, "list"] 60 with e | cp
      all_goals simp only [hr] at hinv
      · rcases e with m | m | ⟨t, m⟩ <;>
          · simp at hinv
            rcases hinv with rfl | rfl
            · exact ⟨fun _ => rfl, fun h => absurd h version_ne_list⟩
            · exact ⟨fun h => absurd h list_ne_version, fun _ => rfl⟩
      · split at hinv <;>
          · simp at hinv
            rcases hinv with rfl | rfl
            · exact ⟨fun _ => rfl, fun h => absurd h version_ne_list⟩
            · exact ⟨fun h => absurd h list_ne_version, fun _ => rfl⟩
  · intro inv hinv
    rcases hpr : (get_qgis_path w).result with _ | p
    · simp [get_qgis_info, hpr] at hinv
    · simp only [get_qgis_info, hpr] at hinv
      rcases hr : w.run [p, "list"] 30 with e | cp
      all_goals simp only [hr] at hinv
      · rcases e with m | m | ⟨t, m⟩ <;>
          · simp at hinv
            rcases hinv with rfl
            exact ⟨fun h => absurd h list_ne_version, fun _ => rfl⟩
      · by_cases hrc : cp.returncode = 0
        · simp only [hrc, if_pos] at hinv
          rcases hv : w.run [p, "--version"] 10 with e2 | vp
          all_goals simp only [hv] at hinv
          · simp at hinv
            rcases hinv with rfl | rfl
            · exact ⟨fun h => absurd h list_ne_version, fun _ => rfl⟩
            · exact ⟨fun _ => rfl, fun h => absurd h version_ne_list⟩
          · split at hinv <;>
              · simp at hinv
                rcases hinv with rfl | rfl
                · exact ⟨fun h => absurd h list_ne_version, fun _ => rfl⟩
                · exact ⟨fun _ => rfl, fun h => absurd h version_ne_list⟩
        · simp only [hrc, if_neg, if_false] at hinv
          simp at hinv
          rcases hinv with rfl
          exact ⟨fun h => absurd h list_ne_version, fun _ => rfl⟩
  · intro inv hinv
    rcases hpr : (get_qgis_path w).result with _ | p
    · simp [test_qgis_algorithm, hpr] at hinv
    · simp only [test_qgis_algorithm, hpr] at hinv
      rcases hr : w.run [p, "help", name] 30 with e | cp
      all_goals simp only [hr] at hinv
      · simp at hinv
        rcases hinv with rfl
        exact ⟨rfl, rfl⟩
      · split at hinv <;>
          · simp at hinv
            rcases hinv with rfl
            exact ⟨rfl, rfl⟩

/-- Witness for C2 amended: the listing invocation of `get_qgis_info` in
the world `w0` carries the 30-second bound. -/
theorem c2_timeouts_amended_witness :
    (⟨["/usr/bin/qgis_process", "list"], 30⟩ : Invocation).timeoutSec = 30 :=
  ((c2_timeouts_amended w0 "buffer").2.1
    ⟨["/usr/bin/qgis_process", "list"], 30⟩ (by decide)).2 rfl

/-! ### Claim about the single-algorithm lookup (C3) -/

/-- The first n characters of a string are at most n characters. -/
theorem strTake_length_le (s : String) (n : Nat) : (strTake s n).length ≤ n := by
  show (s.toList.take n).length ≤ n
  rw [List.length_take]
  exact Nat.min_le_left _ _

/-- C3: for every algorithm name, when the resolver finds a path the
lookup record of `test_qgis_algorithm` carries the algorithm name, the
resolved path, an availability flag that is true exactly when the help
subprocess exits with code zero, and either at most 1000 characters of
help text (on success) or the error text (stderr on a non-zero exit, the
exception message otherwise). -/
theorem c3_test_algorithm_record (w : World) (name p : String)
    (hp : (get_qgis_path w).result = some p) :
    ∀ a, (test_qgis_algorithm w name).result = .ok a →
      a.algorithm = some name ∧
      a.qgis_path = some p ∧
      a.available = some (runExitedZero (w.run [p, "help", name] 30)) ∧
      (∀ h, a.help = some h → h.length ≤ 1000) ∧
      (match w.run [p, "help", name] 30 with
       | .ok cp =>
         if cp.returncode = 0 then
           a.help = some (strTake cp.stdout 1000) ∧ a.error = none
         else a.help = none ∧ a.error = some cp.stderr
       | .error e => a.help = none ∧ a.error = some e.message) := by
  intro a ha
  simp only [test_qgis_algorithm, hp] at ha
  rcases hr : w.run [p, "help", name] 30 with e | cp
  all_goals simp only [hr] at ha ⊢
  · cases ha
    exact ⟨rfl, rfl, by simp [runExitedZero],
           fun h hh => Option.noConfusion hh, rfl, rfl⟩
  · by_cases hrc : cp.returncode = 0
    · rw [if_pos hrc] at ha ⊢
      cases ha
      refine ⟨rfl, rfl, ?_, ?_, rfl, rfl⟩
      · simp [runExitedZero, hrc]
      · intro h hh
        injection hh with hh2
        rw [← hh2]
        exact strTake_length_le _ _
    · rw [if_neg hrc] at ha ⊢
      cases ha
      refine ⟨rfl, rfl, ?_, fun h hh => Option.noConfusion hh, rfl, rfl⟩
      simp [runExitedZero, hrc]

/-- Witness for C3: in `wHelp` the lookup of gdal translate is available
with its availability flag computed from the exit code. -/
theorem c3_test_algorithm_record_witness :
    (⟨some "gdal:translate", some true,
      some (strTake "Algorithm help text" 1000), none,
      some "/usr/bin/qgis_process"⟩ : AlgTest).available =
      some (runExitedZero
        (wHelp.run ["/usr/bin/qgis_process", "help", "gdal:translate"] 30)) :=
  ((c3_test_algorithm_record wHelp "gdal:translate" "/usr/bin/qgis_process"
      rfl) _ rfl).2.2.1

/-! ### Claim that the probes never propagate an exception (C4) -/

/-- A value of `Except` that is a normal return, not a raised exception. -/
def exceptOk {ε α : Type} : Except ε α → Bool
  | .ok _ => true
  | .error _ => false

/-- C4: in every world, for every subprocess outcome (non-zero exit,
timeout, missing binary, or any other raised exception),
`check_qgis_algorithms` completes with a boolean and `get_qgis_info`
completes with a record, never with a propagated exception; and whenever
the record reports `qgis_working = false` the failure has been converted
into a returned error value. -/
theorem c4_never_raises (w : World) :
    exceptOk (check_qgis_algorithms w).result = true ∧
    exceptOk (get_qgis_info w).result = true ∧
    (∀ i, (get_qgis_info w).result = Except.ok i →
      i.qgis_working = some false → i.error.isSome = true) := by
  refine ⟨?_, ?_, ?_⟩
  · rcases hpr : (get_qgis_path w).result with _ | p
    · simp [check_qgis_algorithms, hpr, exceptOk]
    · simp only [check_qgis_algorithms, hpr]
      rcases hr : w.run [p, "list"] 60 with e | cp
      · rcases e with m | m | ⟨t, m⟩ <;> simp [hr, exceptOk]
      · simp only [hr]
        split <;> simp [exceptOk]
  · rcases hpr : (get_qgis_path w).result with _ | p
    · simp [get_qgis_info, hpr, exceptOk]
    · simp only [get_qgis_info, hpr]
      rcases hr : w.run [p, "list"] 30 with e | cp
      · rcases e with m | m | ⟨t, m⟩ <;> simp [hr, exceptOk]
      · simp only [hr]
        split
        · rcases hv : w.run [p, "--version"] 10 with e2 | vp
          · simp [hv, exceptOk]
          · simp only [hv]
            split <;> simp [exceptOk]
        · simp [exceptOk]
  · intro i hi hw
    rcases hpr : (get_qgis_path w).result with _ | p
    · simp only [get_qgis_info, hpr] at hi
      cases hi
      simp at hw
    · simp only [get_qgis_info, hpr] at hi
      rcases hr : w.run [p, "list"] 30 with e | cp
      · rcases e with m | m | ⟨t, m⟩ <;>
          · simp only [hr] at hi
            cases hi
            rfl
      · simp only [hr] at hi
        split at hi
        · rcases hv : w.run [p, "--version"] 10 with e2 | vp
          · simp only [hv] at hi
            cases hi
            simp at hw
          · simp only [hv] at hi
            split at hi <;>
              · cases hi
                simp at hw
        · cases hi
          rfl

/-- Witness for C4: in the timing-out world the checker returns a normal
boolean and the summary record carries an error value. -/
theorem c4_never_raises_witness :
    exceptOk (check_qgis_algorithms wTimeout).result = true ∧
    (⟨true, some "/usr/bin/qgis_process", "Linux", true, none, none,
      some false, none, some "QGIS command timed out"⟩ : QgisInfo).error.isSome
      = true :=
  ⟨(c4_never_raises wTimeout).1,
   (c4_never_raises wTimeout).2.2 _ rfl rfl⟩

/-! ### Claim that a timeout is reported as the Timeout category (C8) -/

/-- Two strings with distinct first characters stay distinct under any
extension of the second. -/
theorem ne_append_of_head_ne (a b t : String) (ca cb : Char)
    (ha : a.toList.head? = some ca) (hb : b.toList.head? = some cb)
    (hne : ca ≠ cb) : a ≠ b ++ t := by
  intro he
  apply hne
  have h1 : a.toList = b.toList ++ t.toList := by
    rw [he]; rfl
  have h2 : (b.toList ++ t.toList).head? = some cb := by
    cases hbl : b.toList with
    | nil => rw [hbl] at hb; cases hb
    | cons c cs => rw [hbl] at hb; simpa using hb
  rw [h1, h2] at ha
  exact (Option.some_inj.mp ha).symm

/-- C8: whenever the listing call times out, `check_qgis_algorithms`
returns false with the dedicated timeout diagnostic as its final printed
lines — its last line is never the catch-all line `Exception type:` —
and `get_qgis_info` sets the error field to the fixed timeout message,
not to the generic exception string. -/
theorem c8_timeout_category (w : World) (p m m2 : String)
    (hp : (get_qgis_path w).result = some p)
    (hto : w.run [p, "list"] 60 = .error (.timeoutExpired m))
    (hto2 : w.run [p, "list"] 30 = .error (.timeoutExpired m2)) :
    (check_qgis_algorithms w).result = .ok false ∧
    ["❌ QGIS command timed out (60 seconds)",
     "This might indicate QGIS is installed but not working properly"] <:+
      (check_qgis_algorithms w).log ∧
    (∀ t : String, (check_qgis_algorithms w).log.getLast? ≠
       some ("Exception type: " ++ t)) ∧
    (∀ i, (get_qgis_info w).result = .ok i →
       i.qgis_working = some false ∧
       i.error = some "QGIS command timed out") := by
  have hsuffix :
      ["❌ QGIS command timed out (60 seconds)",
       "This might indicate QGIS is installed but not working properly"] <:+
        (check_qgis_algorithms w).log := by
    simp only [check_qgis_algorithms, hp, hto]
    exact List.suffix_append _ _
  refine ⟨?_, hsuffix, ?_, ?_⟩
  · simp [check_qgis_algorithms, hp, hto]
  · intro t
    obtain ⟨l, hl⟩ := hsuffix
    rw [← hl, List.getLast?_append_of_ne_nil l (by simp)]
    intro hcon
    have h3 := Option.some_inj.mp hcon
    exact ne_append_of_head_ne
      "This might indicate QGIS is installed but not working properly"
      "Exception type: " t 'T' 'E' rfl rfl (by decide) h3
  · intro i hi
    simp only [get_qgis_info, hp, hto2] at hi
    cases hi
    exact ⟨rfl, rfl⟩

/-- Witness for C8: in the timing-out world, the checker returns false
and the summary record carries the fixed timeout message. -/
theorem c8_timeout_category_witness :
    (check_qgis_algorithms wTimeout).result = .ok false ∧
    (⟨true, some "/usr/bin/qgis_process", "Linux", true, none, none,
      some false, none, some "QGIS command timed out"⟩ : QgisInfo).error =
      some "QGIS command timed out" :=
  ⟨(c8_timeout_category wTimeout "/usr/bin/qgis_process"
      "Command timed out after 30 seconds" "Command timed out after 30 seconds"
      rfl rfl rfl).1,
   ((c8_timeout_category wTimeout "/usr/bin/qgis_process"
      "Command timed out after 30 seconds" "Command timed out after 30 seconds"
      rfl rfl rfl).2.2.2 _ rfl).2⟩

end QgisCheck
